import Mathlib

/-!
Shallow embedding of the `wirego` server-bootstrap library (Go) for
verification of its specification.  Each definition translates one Go
declaration from the repository sources (`options.go`, `app.go`,
`health.go`, `interceptors.go`); comments cite the Go code being
embedded.  Opaque runtime values (gRPC interceptors, gateway mux
options, loggers) are modelled by `Nat` labels, since the library
never inspects them — it only stores and chains them.
-/

namespace Wirego

/-- Opaque carrier for `grpc.UnaryServerInterceptor` values: the library
only collects them into an ordered list and attaches the list verbatim. -/
abbrev UnaryInterceptor := Nat

/-- Opaque carrier for `grpc.StreamServerInterceptor` values. -/
abbrev StreamInterceptor := Nat

/-- Opaque carrier for `runtime.ServeMuxOption` values. -/
abbrev MuxOption := Nat

/-- Opaque carrier for `*slog.Logger` values. -/
abbrev Logger := Nat

/-- Observable events of one HTTP request passing through a middleware
chain: middleware `i`'s logic before delegating, the final handler, and
middleware `i`'s logic after the delegate returns. -/
inductive HEvent where
  | before (i : Nat)
  | handle
  | after (i : Nat)
deriving DecidableEq, Repr

/-- An `http.Handler`, modelled by the ordered trace of events it
produces while serving one request. -/
abbrev Handler := List HEvent

/-- A `func(http.Handler) http.Handler` HTTP middleware. -/
abbrev Middleware := Handler → Handler

/-- The middleware that, on each request, runs its own before-logic
(event `before i`), delegates to the wrapped handler, then runs its own
after-logic (event `after i`).  This is the generic shape of the
middleware in `interceptors/http` (e.g. `LoggingMiddleware` does work
before and after `next.ServeHTTP`). -/
def tracedMiddleware (i : Nat) : Middleware :=
  fun h => HEvent.before i :: h ++ [HEvent.after i]

/-- Go `Options` struct (`options.go`): all configuration for the
application.  Ports are `int` in Go, so `Int` here. -/
structure Options where
  grpcPort : Int
  httpPort : Int
  enableReflection : Bool
  shutdownTimeout : Nat
  unaryInterceptors : List UnaryInterceptor
  streamInterceptors : List StreamInterceptor
  muxOptions : List MuxOption
  httpMiddleware : List Middleware
  logger : Logger

/-- Go `type Option func(*Options)`: an option mutates the builder. -/
abbrev AppOption := Options → Options

/-- Go `defaultOptions` (`options.go`): gRPC port 9000, HTTP port 0
(secondary transport disabled), reflection on, 10-second shutdown
timeout, empty interceptor/middleware lists, default JSON logger
(label 0). -/
def defaultOptions : Options :=
  { grpcPort := 9000
    httpPort := 0
    enableReflection := true
    shutdownTimeout := 10
    unaryInterceptors := []
    streamInterceptors := []
    muxOptions := []
    httpMiddleware := []
    logger := 0 }

/-- Go `WithGRPCPort`: sets the gRPC server port. -/
def WithGRPCPort (port : Int) : AppOption :=
  fun o => { o with grpcPort := port }

/-- Go `WithHTTPPort`: sets the HTTP server port. -/
def WithHTTPPort (port : Int) : AppOption :=
  fun o => { o with httpPort := port }

/-- Go `WithReflection`: enables/disables gRPC reflection. -/
def WithReflection (enable : Bool) : AppOption :=
  fun o => { o with enableReflection := enable }

/-- Go `WithShutdownTimeout`: sets the graceful-shutdown timeout. -/
def WithShutdownTimeout (timeout : Nat) : AppOption :=
  fun o => { o with shutdownTimeout := timeout }

/-- Go `WithUnaryInterceptors`: appends unary interceptors
(`o.unaryInterceptors = append(o.unaryInterceptors, interceptors...)`). -/
def WithUnaryInterceptors (interceptors : List UnaryInterceptor) : AppOption :=
  fun o => { o with unaryInterceptors := o.unaryInterceptors ++ interceptors }

/-- Go `WithStreamInterceptors`: appends stream interceptors. -/
def WithStreamInterceptors (interceptors : List StreamInterceptor) : AppOption :=
  fun o => { o with streamInterceptors := o.streamInterceptors ++ interceptors }

/-- Go `WithMuxOptions`: appends gRPC-Gateway ServeMux options. -/
def WithMuxOptions (options : List MuxOption) : AppOption :=
  fun o => { o with muxOptions := o.muxOptions ++ options }

/-- Go `WithHTTPMiddleware`: appends HTTP middleware. -/
def WithHTTPMiddleware (middleware : List Middleware) : AppOption :=
  fun o => { o with httpMiddleware := o.httpMiddleware ++ middleware }

/-- Go `WithLogger`: replaces the logger. -/
def WithLogger (logger : Logger) : AppOption :=
  fun o => { o with logger := logger }

/-- The option-application loop at the top of Go `NewApp`:
`options := defaultOptions(); for _, opt := range opts { opt(options) }`. -/
def applyOptions (opts : List AppOption) : Options :=
  opts.foldl (fun o f => f o) defaultOptions

/-- Go `Options.wrapHTTPHandler` (`options.go`): applies the registered
middleware to the handler with the loop
`for i := len(o.httpMiddleware)-1; i >= 0; i-- { h = o.httpMiddleware[i](h) }`,
i.e. `h = mw[0](mw[1](… mw[n-1](handler)))` — a right fold. -/
def Options.wrapHTTPHandler (o : Options) (handler : Handler) : Handler :=
  o.httpMiddleware.foldr (fun m h => m h) handler

/-- Opaque carrier for `context.Context` values handed to readiness
checks and HTTP requests. -/
abbrev Ctx := Nat

/-- `ReadinessCheck` interface (`health.go`): `Check(ctx) error`.
Modelled as a function returning `none` on success or
`some msg` where `msg` is the error's `Error()` string. -/
abbrev ReadinessCheck := Ctx → Option String

/-- Go `grpc_health_v1` serving status values used by the library. -/
inductive ServingStatus where
  | serving
  | notServing
deriving DecidableEq, Repr

/-- `health.Server` from `google.golang.org/grpc/health`: the library
uses only the status flag of the empty service name `""`.
`health.NewServer()` initialises that flag to SERVING. -/
structure HealthServer where
  status : ServingStatus
deriving DecidableEq, Repr

/-- `health.NewServer()`: initial status for `""` is SERVING. -/
def newHealthServer : HealthServer := { status := .serving }

/-- `(*health.Server).SetServingStatus` for the empty service name. -/
def HealthServer.SetServingStatus (h : HealthServer) (s : ServingStatus) : HealthServer :=
  { h with status := s }

/-- Go `ReadinessHandler` (`health.go`): iterates the checks in order
against the request context; the first failing check yields status 503
with the error message as body and stops the loop; if every check
passes, yields 200 with body `"Ready"`.  The result is the
`(statusCode, body)` pair written to the response. -/
def ReadinessHandler (checks : List ReadinessCheck) (ctx : Ctx) : Nat × String :=
  match checks with
  | [] => (200, "Ready")
  | c :: rest =>
    match c ctx with
    | some msg => (503, msg)
    | none => ReadinessHandler rest ctx

/-- Go `HealthHandler` (`health.go`): 200 `"OK"` when the health
registry reports SERVING, else 503 `"Service Unavailable"`. -/
def HealthHandler (healthCheck : HealthServer) (_ctx : Ctx) : Nat × String :=
  if healthCheck.status = .serving then (200, "OK")
  else (503, "Service Unavailable")

/-- The handler registered for a route of the main `http.ServeMux`.
Only the routes the library itself installs are needed. -/
inductive RouteHandler where
  | health
  | readiness (checks : List ReadinessCheck)
  | gateway

/-- `http.ServeMux`: routing table from patterns to handlers.  Only the
registration behaviour matters here; per Go's `net/http` documentation,
registering a pattern that conflicts with an already-registered pattern
(in particular, registering the same literal pattern twice) makes
`Handle`/`HandleFunc` panic. -/
structure ServeMux where
  entries : List (String × RouteHandler)

/-- `(*http.ServeMux).Handle` / `HandleFunc`: appends the route, or
panics (modelled as `Except.error` carrying the panic message) when the
pattern is already registered.  (Go ≥ 1.22 words the panic as a pattern
conflict; earlier versions as "multiple registrations"; either way the
call aborts.) -/
def ServeMux.handle (m : ServeMux) (pat : String) (h : RouteHandler) : Except String ServeMux :=
  if m.entries.any (fun e => e.1 = pat) then
    .error ("http: pattern " ++ pat ++ " conflicts with existing registration")
  else
    .ok { entries := m.entries ++ [(pat, h)] }

/-- Go `WithHealthEndpoints` (`health.go`): registers `/healthz` with
`HealthHandler` and `/readyz` with `ReadinessHandler(readinessChecks...)`
on the mux.  A registration panic propagates (`Except.error`). -/
def WithHealthEndpoints (mux : ServeMux) (_healthCheck : HealthServer)
    (readinessChecks : List ReadinessCheck) : Except String ServeMux := do
  let m ← mux.handle "/healthz" .health
  m.handle "/readyz" (.readiness readinessChecks)

/-- Abnormal termination of a Go call: a returned `error` value, or a
runtime panic that aborts the goroutine. -/
inductive GoAbort where
  | err (msg : String)
  | panicked (msg : String)
deriving DecidableEq, Repr

/-- The gRPC server as configured by `NewApp`: the interceptor chains
are attached verbatim, the health service is registered, reflection is
registered iff enabled. -/
structure GRPCServer where
  unaryInterceptors : List UnaryInterceptor
  streamInterceptors : List StreamInterceptor
  healthRegistered : Bool
  reflectionRegistered : Bool

/-- `runtime.ServeMux` (gRPC-Gateway multiplexer) built from the
configured mux options. -/
structure GatewayMux where
  muxOptions : List MuxOption

/-- `http.Server` allocated by `NewApp`:
`Addr: fmt.Sprintf(":%d", options.httpPort)`.  (Its `Handler` field is
`options.wrapHTTPHandler(httpMux)`; the middleware-wrapping semantics
is modelled by `Options.wrapHTTPHandler` directly.) -/
structure HTTPServer where
  addr : String

/-- Go `App` struct (`app.go`).  `httpServer`, `mux` and `httpMux` are
nil (`none`) when the secondary transport is disabled. -/
structure App where
  options : Options
  grpcServer : GRPCServer
  httpServer : Option HTTPServer
  healthCheck : HealthServer
  mux : Option GatewayMux
  httpMux : Option ServeMux

/-- Go `NewApp` (`app.go`): applies the options to the defaults,
rejects a non-positive gRPC port before creating anything, builds the
gRPC server with the interceptor chains plus health (and reflection if
enabled), and — only when `httpPort > 0` — builds the gateway mux, the
HTTP mux with the standard health endpoints (no readiness checks yet)
and a catch-all `/` route to the gateway, and the HTTP server. -/
def NewApp (opts : List AppOption) : Except GoAbort App :=
  let options := applyOptions opts
  if options.grpcPort ≤ 0 then
    .error (.err "gRPC port must be specified and be greater than 0")
  else
    let healthCheck := newHealthServer
    let grpcServer : GRPCServer :=
      { unaryInterceptors := options.unaryInterceptors
        streamInterceptors := options.streamInterceptors
        healthRegistered := true
        reflectionRegistered := options.enableReflection }
    if options.httpPort > 0 then
      let gwMux : GatewayMux := { muxOptions := options.muxOptions }
      let httpMux0 : ServeMux := { entries := [] }
      match WithHealthEndpoints httpMux0 healthCheck [] with
      | .error e => .error (.panicked e)
      | .ok m1 =>
        match m1.handle "/" .gateway with
        | .error e => .error (.panicked e)
        | .ok m2 =>
          let httpServer : HTTPServer := { addr := ":" ++ toString options.httpPort }
          .ok { options := options
                grpcServer := grpcServer
                httpServer := some httpServer
                healthCheck := healthCheck
                mux := some gwMux
                httpMux := some m2 }
    else
      .ok { options := options
            grpcServer := grpcServer
            httpServer := none
            healthCheck := healthCheck
            mux := none
            httpMux := none }

/-- A hosted service as `App.Run` observes it: it always has
`RegisterGRPC`; it may additionally satisfy `ReadinessProvider`
(`hasReadiness`, with the checks `ReadinessChecks()` returns) and/or
`HTTPProvider` (`hasHTTP`, whose `RegisterHTTP` returns `none` on
success or `some msg` for an error with message `msg`). -/
structure Service where
  hasReadiness : Bool
  readinessChecks : List ReadinessCheck
  hasHTTP : Bool
  registerHTTP : Option String

/-- Observable outcome of the sequential main body of `App.Run` up to
the point where it either aborts (returns an error / panics) or blocks
in `g.Wait()`.  `groupCancelled` records whether the errgroup-derived
context has been cancelled by that point: per `errgroup.WithContext`,
the context is cancelled only when a function passed to `g.Go` returns
a non-nil error or when `g.Wait` returns. -/
structure RunTrace where
  primaryLaunched : Bool
  readyzRegistered : Bool
  secondaryLaunched : Bool
  watcherLaunched : Bool
  reachedWait : Bool
  outcome : Option GoAbort
  groupCancelled : Bool
deriving Repr

/-- Go `App.Run` (`app.go`), sequential main-goroutine control flow:

1. set health status SERVING; create the errgroup;
2. `startGRPCServer`: register the service and launch the primary
   (gRPC) accept-loop task;
3. if `httpMux != nil && httpServer != nil` and the service implements
   `ReadinessProvider`: `httpMux.HandleFunc("/readyz", ...)` — this is
   `ServeMux.handle`, which panics if `/readyz` is already registered;
   the panic aborts `Run` on the main goroutine (nothing here recovers);
4. if `httpServer != nil && mux != nil`: if the service implements
   `HTTPProvider`, `startHTTPServer` calls `RegisterHTTP` synchronously
   and on error `Run` returns that error at once — without launching
   the secondary task, the watcher, or calling `g.Wait()`; otherwise
   the secondary accept-loop task is launched without registration;
5. `handleGracefulShutdown` launches the watcher task; `g.Wait()`.

In the early-return and panic cases no `g.Go` function has returned an
error and `g.Wait` was never called, so the group context is not
cancelled (`groupCancelled = false`) and the already-launched primary
task keeps running.  In the `reachedWait` cases `g.Wait` does cancel
the context when it eventually returns (`groupCancelled = true`). -/
def App.Run (a : App) (svc : Service) : RunTrace :=
  let readinessStep : Except String Unit :=
    match a.httpMux, a.httpServer with
    | some hm, some _ =>
      if svc.hasReadiness then
        (hm.handle "/readyz" (.readiness svc.readinessChecks)).map (fun _ => ())
      else .ok ()
    | _, _ => .ok ()
  match readinessStep with
  | .error e =>
    { primaryLaunched := true
      readyzRegistered := false
      secondaryLaunched := false
      watcherLaunched := false
      reachedWait := false
      outcome := some (.panicked e)
      groupCancelled := false }
  | .ok _ =>
    let registered := a.httpMux.isSome && a.httpServer.isSome && svc.hasReadiness
    match a.httpServer, a.mux with
    | some _, some _ =>
      if svc.hasHTTP then
        match svc.registerHTTP with
        | some e =>
          { primaryLaunched := true
            readyzRegistered := registered
            secondaryLaunched := false
            watcherLaunched := false
            reachedWait := false
            outcome := some (.err ("failed to register HTTP handlers: " ++ e))
            groupCancelled := false }
        | none =>
          { primaryLaunched := true
            readyzRegistered := registered
            secondaryLaunched := true
            watcherLaunched := true
            reachedWait := true
            outcome := none
            groupCancelled := true }
      else
        { primaryLaunched := true
          readyzRegistered := registered
          secondaryLaunched := true
          watcherLaunched := true
          reachedWait := true
          outcome := none
          groupCancelled := true }
    | _, _ =>
      { primaryLaunched := true
        readyzRegistered := registered
        secondaryLaunched := false
        watcherLaunched := true
        reachedWait := true
        outcome := none
        groupCancelled := true }

/-- Events of one execution of `App.Shutdown` (`app.go`), paired with
the wall-clock time (time units after `Shutdown` is entered) at which
the call happens or returns.  The list order is the program order of
the single goroutine running `Shutdown`. -/
inductive SEvent where
  | setNotServing
  | httpShutdownBegin
  | httpShutdownEnd
  | grpcGracefulBegin
  | grpcGracefulEnd
  | grpcForceStop
deriving DecidableEq, Repr

/-- Abstract drain durations for one shutdown: how long the HTTP server
would need to drain its in-flight requests, and how long the gRPC
server's `GracefulStop` would need. -/
structure DrainTimes where
  httpDrain : Nat
  grpcDrain : Nat

/-- Go `App.Shutdown` (`app.go`) as a timed event trace:

1. `SetServingStatus("", NOT_SERVING)` — first statement;
2. a timeout context with deadline `shutdownTimeout` is created;
3. if `httpServer != nil`: `httpServer.Shutdown(ctx)` is called and
   **blocks** until the drain completes or the context expires, so it
   returns at `min httpDrain T`;
4. only after that call returns: `GracefulStop` runs in a goroutine
   while `Shutdown` selects on `ctx.Done()` vs. completion — graceful
   completion at `gBegin + grpcDrain` if that is within the deadline,
   otherwise `Stop()` force-terminates at the deadline `T`.

(`grpcServer` is never nil for an `App` built by `NewApp`, so the
`grpcServer != nil` guard is always taken.) -/
def App.shutdownEvents (a : App) (d : DrainTimes) : List (SEvent × Nat) :=
  let T := a.options.shutdownTimeout
  let hEnd := min d.httpDrain T
  let httpPart : List (SEvent × Nat) :=
    match a.httpServer with
    | some _ => [(SEvent.httpShutdownBegin, 0), (SEvent.httpShutdownEnd, hEnd)]
    | none => []
  let gBegin : Nat :=
    match a.httpServer with
    | some _ => hEnd
    | none => 0
  let grpcPart : List (SEvent × Nat) :=
    if gBegin + d.grpcDrain ≤ T then
      [(SEvent.grpcGracefulBegin, gBegin), (SEvent.grpcGracefulEnd, gBegin + d.grpcDrain)]
    else
      [(SEvent.grpcGracefulBegin, gBegin), (SEvent.grpcForceStop, T)]
  (SEvent.setNotServing, 0) :: httpPart ++ grpcPart

/-- Cumulative counts of the externally visible stop/drain calls that
executions of `App.Shutdown` have performed on the servers. -/
structure ShutdownEffects where
  setNotServingCalls : Nat
  httpShutdownCalls : Nat
  grpcStopSequences : Nat
deriving DecidableEq, Repr

/-- One invocation of Go `App.Shutdown` (`app.go`) as a transition on
the cumulative effect counters.  The method body has no guard of any
kind (no `sync.Once`, no mutex, no executed-flag): every invocation
unconditionally calls `SetServingStatus(NOT_SERVING)`, then
`httpServer.Shutdown(ctx)` when `httpServer != nil`, then the
`GracefulStop`/forced-`Stop` sequence on the gRPC server. -/
def App.shutdownOnce (a : App) (s : ShutdownEffects) : ShutdownEffects :=
  { setNotServingCalls := s.setNotServingCalls + 1
    httpShutdownCalls :=
      s.httpShutdownCalls + (match a.httpServer with | some _ => 1 | none => 0)
    grpcStopSequences := s.grpcStopSequences + 1 }

/-- The two triggers the shutdown watcher waits on. -/
inductive ShutdownTrigger where
  | osSignal
  | ctxDone
deriving DecidableEq, Repr

/-- Go `App.handleGracefulShutdown` watcher body (`app.go`): the
`select` wakes exactly once — on whichever of the OS signal and the
context cancellation arrives first — then calls `a.Shutdown()` exactly
once and returns nil.  `first` is the trigger that won the select. -/
def App.handleGracefulShutdown (a : App) (_first : ShutdownTrigger)
    (s : ShutdownEffects) : ShutdownEffects :=
  a.shutdownOnce s

/-- The application built from gRPC port 9000 and HTTP port 8000 (the
configuration of `examples/simple`); used as a concrete instance in
several results.  The fallback branch is unreachable: `NewApp` succeeds
on this input. -/
def sampleAppWithHTTP : App :=
  match NewApp [WithGRPCPort 9000, WithHTTPPort 8000] with
  | .ok a => a
  | .error _ =>
    { options := defaultOptions
      grpcServer :=
        { unaryInterceptors := []
          streamInterceptors := []
          healthRegistered := true
          reflectionRegistered := true }
      httpServer := none
      healthCheck := newHealthServer
      mux := none
      httpMux := none }

/-- A service implementing all three capabilities, with one
always-passing readiness check and a successful `RegisterHTTP`. -/
def readinessService : Service :=
  { hasReadiness := true
    readinessChecks := [fun _ => none]
    hasHTTP := true
    registerHTTP := none }

/-- A service without readiness checks whose `RegisterHTTP` returns the
error `"boom"`. -/
def httpErrService : Service :=
  { hasReadiness := false
    readinessChecks := []
    hasHTTP := true
    registerHTTP := some "boom" }

/-- The property claimed by the specification of `App.Shutdown`: in the
shutdown of an application, the primary (gRPC) stop begins strictly
before the secondary (HTTP) drain ends, i.e. the two stop operations
overlap in time instead of running one after the other.  (Stated from
the spec's words, to be compared against `App.shutdownEvents`, which is
translated from the source.) -/
def drainsOverlap (a : App) (d : DrainTimes) : Prop :=
  ∃ tg th, (SEvent.grpcGracefulBegin, tg) ∈ a.shutdownEvents d ∧
    (SEvent.httpShutdownEnd, th) ∈ a.shutdownEvents d ∧ tg < th

/-! ## Helper lemmas -/

/-- Wrapping a list of traced middlewares (by the source's
reverse-index loop, i.e. a right fold) produces: before-events in
registration order, the base handler's trace, after-events in reverse
registration order. -/
theorem foldr_tracedMiddleware (labels : List Nat) (base : Handler) :
    (labels.map tracedMiddleware).foldr (fun m h => m h) base =
      labels.map HEvent.before ++ base ++ (labels.map HEvent.after).reverse := by
  induction labels with
  | nil => simp
  | cons l ls ih => simp [tracedMiddleware, ih]

/-- If every check before the failing one passes, `ReadinessHandler`
returns 503 with the failing check's message, whatever follows it. -/
theorem readinessHandler_first_fail (pre post : List ReadinessCheck)
    (c : ReadinessCheck) (ctx : Ctx) (msg : String)
    (hpre : ∀ p ∈ pre, p ctx = none) (hc : c ctx = some msg) :
    ReadinessHandler (pre ++ c :: post) ctx = (503, msg) := by
  induction pre with
  | nil => simp [ReadinessHandler, hc]
  | cons q qs ih =>
    have hq : q ctx = none := hpre q (by simp)
    rw [List.cons_append, ReadinessHandler, hq]
    exact ih (fun p hp => hpre p (by simp [hp]))

/-- If every check passes, `ReadinessHandler` returns 200 `"Ready"`. -/
theorem readinessHandler_all_pass (checks : List ReadinessCheck) (ctx : Ctx)
    (h : ∀ p ∈ checks, p ctx = none) :
    ReadinessHandler checks ctx = (200, "Ready") := by
  induction checks with
  | nil => rfl
  | cons q qs ih =>
    have hq : q ctx = none := h q (by simp)
    rw [ReadinessHandler, hq]
    exact ih (fun p hp => h p (by simp [hp]))

/-! ## Claims -/

/-- C6: for every configuration whose gRPC port (after applying the
options to the defaults) is ≤ 0, `NewApp` fails with the
invalid-configuration error and no application (hence no servers) is
created; for every configuration with gRPC port > 0, construction
succeeds. -/
theorem newApp_port_validation (opts : List AppOption) :
    ((applyOptions opts).grpcPort ≤ 0 →
      NewApp opts = .error (.err "gRPC port must be specified and be greater than 0")) ∧
    (0 < (applyOptions opts).grpcPort → ∃ a, NewApp opts = .ok a) := by
  constructor
  · intro h
    unfold NewApp
    rw [if_pos h]
  · intro h
    unfold NewApp
    rw [if_neg (not_le.mpr h)]
    by_cases hp : (applyOptions opts).httpPort > 0
    · rw [if_pos hp]
      exact ⟨_, rfl⟩
    · rw [if_neg hp]
      exact ⟨_, rfl⟩

/-- Witness for C6: port 0 is rejected with the exact error; port 9000
(with HTTP port 8000) constructs successfully. -/
theorem newApp_port_validation_witness :
    NewApp [WithGRPCPort 0] =
      .error (.err "gRPC port must be specified and be greater than 0") ∧
    (∃ a, NewApp [WithGRPCPort 9000, WithHTTPPort 8000] = .ok a) :=
  ⟨(newApp_port_validation [WithGRPCPort 0]).1 (by decide),
   (newApp_port_validation [WithGRPCPort 9000, WithHTTPPort 8000]).2 (by decide)⟩

/-- C7: for middleware A1..An registered in that order,
`wrapHTTPHandler` yields a handler whose request trace is A1's
before-logic first through An's before-logic last, then the final
handler, then the after-logic in reverse registration order — the
last-registered middleware wraps closest to the final handler. -/
theorem wrapHTTPHandler_ordering (labels : List Nat) (o : Options)
    (hmw : o.httpMiddleware = labels.map tracedMiddleware) :
    o.wrapHTTPHandler [HEvent.handle] =
      labels.map HEvent.before ++ [HEvent.handle] ++ (labels.map HEvent.after).reverse := by
  rw [Options.wrapHTTPHandler, hmw, foldr_tracedMiddleware]

/-- Witness for C7: three middlewares registered in order 1, 2, 3. -/
theorem wrapHTTPHandler_ordering_witness :
    ({ defaultOptions with
        httpMiddleware := [1, 2, 3].map tracedMiddleware } : Options).wrapHTTPHandler
        [HEvent.handle] =
      [HEvent.before 1, HEvent.before 2, HEvent.before 3, HEvent.handle,
       HEvent.after 3, HEvent.after 2, HEvent.after 1] :=
  wrapHTTPHandler_ordering [1, 2, 3]
    { defaultOptions with httpMiddleware := [1, 2, 3].map tracedMiddleware } rfl

/-- C8: `/readyz` evaluates the checks in order against the request
context; if the k-th check is the first to fail, the response is 503
with that check's error message as body — independent of the checks
after it, which are never evaluated — and if all checks pass the
response is 200 `"Ready"`. -/
theorem readyz_semantics (pre post checks : List ReadinessCheck)
    (c : ReadinessCheck) (ctx : Ctx) (msg : String) :
    ((∀ p ∈ pre, p ctx = none) → c ctx = some msg →
      ReadinessHandler (pre ++ c :: post) ctx = (503, msg)) ∧
    ((∀ p ∈ checks, p ctx = none) → ReadinessHandler checks ctx = (200, "Ready")) :=
  ⟨fun hpre hc => readinessHandler_first_fail pre post c ctx msg hpre hc,
   fun h => readinessHandler_all_pass checks ctx h⟩

/-- Witness for C8: a passing check followed by a failing one (with a
further check after it that is not reached), and a list of two passing
checks. -/
theorem readyz_semantics_witness :
    ReadinessHandler
        [fun _ => none, fun _ => some "db down", fun _ => some "cache down"] 0 =
      (503, "db down") ∧
    ReadinessHandler [fun _ => none, fun _ => none] 0 = (200, "Ready") := by
  have h := readyz_semantics [fun _ => none] [fun _ => some "cache down"]
    [fun _ => none, fun _ => none] (fun _ => some "db down") 0 "db down"
  refine ⟨h.1 ?_ rfl, h.2 ?_⟩
  · intro p hp
    rw [List.mem_singleton] at hp
    rw [hp]
  · intro p hp
    rcases List.mem_cons.mp hp with h1 | h2
    · rw [h1]
    · rw [List.mem_singleton] at h2
      rw [h2]

/-- C9: options are applied to the default-seeded builder in call
order; a later option for a scalar field (gRPC port, HTTP port,
reflection flag, shutdown timeout, logger) overwrites the value no
matter what was applied before, while the list-valued options (unary
and stream interceptors, mux options, HTTP middleware) append to the
accumulated list, preserving order. -/
theorem options_applied_in_order (opts : List AppOption) (p q : Int) (b : Bool)
    (t : Nat) (lg : Logger) (uis : List UnaryInterceptor)
    (sis : List StreamInterceptor) (mos : List MuxOption) (mws : List Middleware) :
    applyOptions [] = defaultOptions ∧
    (∀ f : AppOption, applyOptions (opts ++ [f]) = f (applyOptions opts)) ∧
    applyOptions (opts ++ [WithGRPCPort p]) =
      { applyOptions opts with grpcPort := p } ∧
    applyOptions (opts ++ [WithHTTPPort q]) =
      { applyOptions opts with httpPort := q } ∧
    applyOptions (opts ++ [WithReflection b]) =
      { applyOptions opts with enableReflection := b } ∧
    applyOptions (opts ++ [WithShutdownTimeout t]) =
      { applyOptions opts with shutdownTimeout := t } ∧
    applyOptions (opts ++ [WithLogger lg]) =
      { applyOptions opts with logger := lg } ∧
    applyOptions (opts ++ [WithUnaryInterceptors uis]) =
      { applyOptions opts with
          unaryInterceptors := (applyOptions opts).unaryInterceptors ++ uis } ∧
    applyOptions (opts ++ [WithStreamInterceptors sis]) =
      { applyOptions opts with
          streamInterceptors := (applyOptions opts).streamInterceptors ++ sis } ∧
    applyOptions (opts ++ [WithMuxOptions mos]) =
      { applyOptions opts with
          muxOptions := (applyOptions opts).muxOptions ++ mos } ∧
    applyOptions (opts ++ [WithHTTPMiddleware mws]) =
      { applyOptions opts with
          httpMiddleware := (applyOptions opts).httpMiddleware ++ mws } := by
  refine ⟨rfl, fun f => ?_, ?_, ?_, ?_, ?_, ?_, ?_, ?_, ?_, ?_⟩ <;>
    simp [applyOptions, List.foldl_append, WithGRPCPort, WithHTTPPort,
      WithReflection, WithShutdownTimeout, WithLogger, WithUnaryInterceptors,
      WithStreamInterceptors, WithMuxOptions, WithHTTPMiddleware]

/-- C10: whenever the HTTP port after option application is ≤ 0 —
zero or strictly negative alike — construction succeeds (given a valid
gRPC port) and creates no HTTP server, no HTTP mux and no gateway mux:
a negative secondary port disables the secondary transport exactly like
0 rather than being rejected. -/
theorem newApp_nonpositive_http_port (opts : List AppOption)
    (hg : 0 < (applyOptions opts).grpcPort)
    (hh : (applyOptions opts).httpPort ≤ 0) :
    ∃ a, NewApp opts = .ok a ∧
      a.httpServer = none ∧ a.mux = none ∧ a.httpMux = none := by
  unfold NewApp
  rw [if_neg (not_le.mpr hg), if_neg (not_lt.mpr hh)]
  exact ⟨_, rfl, rfl, rfl, rfl⟩

/-- Witness for C10: a strictly negative HTTP port (−5) with the
default gRPC port 9000. -/
theorem newApp_nonpositive_http_port_witness :
    0 < (applyOptions [WithHTTPPort (-5)]).grpcPort ∧
    (applyOptions [WithHTTPPort (-5)]).httpPort ≤ 0 ∧
    ∃ a, NewApp [WithHTTPPort (-5)] = .ok a ∧
      a.httpServer = none ∧ a.mux = none ∧ a.httpMux = none :=
  ⟨by decide, by decide,
   newApp_nonpositive_http_port [WithHTTPPort (-5)] (by decide) (by decide)⟩

/-- C1 (evaluation at the failing input): for the example configuration
(gRPC port 9000, HTTP port 8000) and a service implementing the
readiness capability, `Run` does not replace the no-op `/readyz` route:
`http.ServeMux` rejects the second registration of `/readyz` (the first
was installed by `WithHealthEndpoints` during construction), so the
`HandleFunc` call panics and aborts the run. -/
theorem run_readiness_registration_panics :
    (NewApp [WithGRPCPort 9000, WithHTTPPort 8000]).map
        (fun a => (a.Run readinessService).outcome) =
      .ok (some (.panicked "http: pattern /readyz conflicts with existing registration")) :=
  rfl

/-- Counterexample for C2: with the example configuration and a service
whose `RegisterHTTP` fails with `"boom"`, `Run` does return the wrapped
error and never launches the secondary accept loop — but the errgroup
context is not cancelled when `Run` returns (no group task has failed
and `g.Wait` was never called), so the already-launched primary server
task is NOT cancelled, contradicting the claim. -/
theorem run_http_error_counterexample :
    (sampleAppWithHTTP.Run httpErrService).outcome =
      some (.err "failed to register HTTP handlers: boom") ∧
    (sampleAppWithHTTP.Run httpErrService).secondaryLaunched = false ∧
    (sampleAppWithHTTP.Run httpErrService).primaryLaunched = true ∧
    (sampleAppWithHTTP.Run httpErrService).groupCancelled = false :=
  ⟨rfl, rfl, rfl, rfl⟩

set_option maxRecDepth 8192 in
/-- C2 amended: for every service (without the readiness capability,
which would already abort earlier) whose HTTP registration call returns
an error while the secondary transport is enabled, `Run` returns that
error immediately — wrapped as a handler-registration failure — and the
secondary accept loop, the shutdown watcher and `g.Wait` are never
reached; the already-launched primary server task is, however, not
cancelled: the group context is untouched when `Run` returns. -/
theorem run_http_registration_error (a : App) (svc : Service) (e : String)
    (hr : svc.hasReadiness = false) (hh : svc.hasHTTP = true)
    (he : svc.registerHTTP = some e) (hs : a.httpServer.isSome = true)
    (hm : a.mux.isSome = true) :
    (a.Run svc).outcome = some (.err ("failed to register HTTP handlers: " ++ e)) ∧
    (a.Run svc).primaryLaunched = true ∧
    (a.Run svc).secondaryLaunched = false ∧
    (a.Run svc).watcherLaunched = false ∧
    (a.Run svc).reachedWait = false ∧
    (a.Run svc).groupCancelled = false := by
  rcases Option.isSome_iff_exists.mp hs with ⟨srv, hsrv⟩
  rcases Option.isSome_iff_exists.mp hm with ⟨gw, hgw⟩
  cases hmx : a.httpMux <;>
    simp [App.Run, hr, hh, he, hsrv, hgw, hmx]

/-- Witness for C2 amended: the example configuration with the
`"boom"`-failing service. -/
theorem run_http_registration_error_witness :
    httpErrService.hasReadiness = false ∧
    httpErrService.hasHTTP = true ∧
    httpErrService.registerHTTP = some "boom" ∧
    sampleAppWithHTTP.httpServer.isSome = true ∧
    sampleAppWithHTTP.mux.isSome = true ∧
    ((sampleAppWithHTTP.Run httpErrService).outcome =
        some (.err ("failed to register HTTP handlers: " ++ "boom")) ∧
      (sampleAppWithHTTP.Run httpErrService).primaryLaunched = true ∧
      (sampleAppWithHTTP.Run httpErrService).secondaryLaunched = false ∧
      (sampleAppWithHTTP.Run httpErrService).watcherLaunched = false ∧
      (sampleAppWithHTTP.Run httpErrService).reachedWait = false ∧
      (sampleAppWithHTTP.Run httpErrService).groupCancelled = false) :=
  ⟨rfl, rfl, rfl, rfl, rfl,
   run_http_registration_error sampleAppWithHTTP httpErrService "boom"
     rfl rfl rfl rfl rfl⟩

/-- Counterexample for C3: in the shutdown of the example application
with an HTTP drain needing 3 units and a gRPC drain needing 2 (deadline
10), the gRPC graceful stop begins exactly when the HTTP drain ends
(time 3): the two stop operations never overlap, so they do not run
concurrently — `httpServer.Shutdown(ctx)` blocks before `GracefulStop`
is ever started. -/
theorem shutdown_not_concurrent_counterexample :
    ¬ drainsOverlap sampleAppWithHTTP { httpDrain := 3, grpcDrain := 2 } ∧
    sampleAppWithHTTP.shutdownEvents { httpDrain := 3, grpcDrain := 2 } =
      [(SEvent.setNotServing, 0), (SEvent.httpShutdownBegin, 0),
       (SEvent.httpShutdownEnd, 3), (SEvent.grpcGracefulBegin, 3),
       (SEvent.grpcGracefulEnd, 5)] := by
  have hev : sampleAppWithHTTP.shutdownEvents { httpDrain := 3, grpcDrain := 2 } =
      [(SEvent.setNotServing, 0), (SEvent.httpShutdownBegin, 0),
       (SEvent.httpShutdownEnd, 3), (SEvent.grpcGracefulBegin, 3),
       (SEvent.grpcGracefulEnd, 5)] := by decide
  refine ⟨?_, hev⟩
  rintro ⟨tg, th, hg, hth, hlt⟩
  rw [hev] at hg hth
  simp at hg hth
  omega

/-- C3 amended: the two servers' stop operations run sequentially, not
concurrently — the gRPC graceful stop begins exactly when the HTTP
drain returns, at `min httpDrain deadline` — but both run against the
same timeout context, so every shutdown event still happens within the
single configured deadline (total shutdown latency is bounded by the
deadline, not by the sum of the two drain times). -/
theorem shutdown_sequential_single_deadline (a : App) (d : DrainTimes)
    (s : HTTPServer) (hs : a.httpServer = some s) :
    (SEvent.httpShutdownEnd, min d.httpDrain a.options.shutdownTimeout) ∈
      a.shutdownEvents d ∧
    (SEvent.grpcGracefulBegin, min d.httpDrain a.options.shutdownTimeout) ∈
      a.shutdownEvents d ∧
    ∀ p ∈ a.shutdownEvents d, p.2 ≤ a.options.shutdownTimeout := by
  unfold App.shutdownEvents
  rw [hs]
  refine ⟨by simp, ?_, ?_⟩
  · by_cases hg :
      min d.httpDrain a.options.shutdownTimeout + d.grpcDrain ≤ a.options.shutdownTimeout
    · simp [hg]
    · simp [hg]
  · intro p hp
    by_cases hg :
        min d.httpDrain a.options.shutdownTimeout + d.grpcDrain ≤ a.options.shutdownTimeout <;>
      simp [hg] at hp <;>
        rcases hp with h | h | h | h | h <;> subst h <;> simp <;> omega

/-- Witness for C3 amended: the example application with HTTP drain 3,
gRPC drain 2, deadline 10. -/
theorem shutdown_sequential_single_deadline_witness :
    sampleAppWithHTTP.httpServer = some { addr := ":8000" } ∧
    ((SEvent.httpShutdownEnd, 3) ∈
        sampleAppWithHTTP.shutdownEvents { httpDrain := 3, grpcDrain := 2 } ∧
      (SEvent.grpcGracefulBegin, 3) ∈
        sampleAppWithHTTP.shutdownEvents { httpDrain := 3, grpcDrain := 2 } ∧
      ∀ p ∈ sampleAppWithHTTP.shutdownEvents { httpDrain := 3, grpcDrain := 2 },
        p.2 ≤ sampleAppWithHTTP.options.shutdownTimeout) :=
  ⟨rfl, shutdown_sequential_single_deadline sampleAppWithHTTP
    { httpDrain := 3, grpcDrain := 2 } { addr := ":8000" } rfl⟩

/-- C4: in every execution of `App.Shutdown`, setting the health
registry to "not serving" is the unique first event of the shutdown
trace — it happens, in program order, strictly before the HTTP drain
call and the gRPC stop begin, so a probe served after shutdown has
begun never sees a serving flag. -/
theorem shutdown_marks_not_serving_first (a : App) (d : DrainTimes) :
    (a.shutdownEvents d).head? = some (SEvent.setNotServing, 0) ∧
    ∀ p ∈ (a.shutdownEvents d).tail, p.1 ≠ SEvent.setNotServing := by
  refine ⟨rfl, ?_⟩
  intro p hp
  have h1 : p.1 ∈ (a.shutdownEvents d).tail.map Prod.fst := List.mem_map_of_mem _ hp
  cases hsv : a.httpServer with
  | none =>
    simp only [App.shutdownEvents, hsv, List.tail_cons, List.nil_append] at h1
    split at h1 <;> cases hx : p.1 <;> simp_all
  | some srv =>
    simp only [App.shutdownEvents, hsv, List.tail_cons] at h1
    split at h1 <;> cases hx : p.1 <;> simp_all

/-- Counterexample for C5: `App.Shutdown` has no single-execution
guard; starting from zero, two invocations perform every stop/drain
call twice — `SetServingStatus(NOT_SERVING)` twice, the HTTP drain
twice, the gRPC stop sequence twice — not exactly once. -/
theorem shutdown_twice_counterexample :
    sampleAppWithHTTP.shutdownOnce (sampleAppWithHTTP.shutdownOnce
        { setNotServingCalls := 0, httpShutdownCalls := 0, grpcStopSequences := 0 }) =
      { setNotServingCalls := 2, httpShutdownCalls := 2, grpcStopSequences := 2 } := by
  decide

/-- C5 amended: the shutdown sequence is not guarded against repeated
invocation: each call of `Shutdown` unconditionally performs the full
stop/drain sequence, so two invocations perform it twice (each
invocation does return — the underlying server stop calls tolerate
repetition); the internal shutdown watcher, whose `select` wakes once
on whichever trigger (OS signal or context cancellation) fires first,
invokes the sequence exactly once per run. -/
theorem shutdown_not_guarded (a : App) (s : ShutdownEffects) (t : ShutdownTrigger) :
    (a.shutdownOnce (a.shutdownOnce s)).setNotServingCalls = s.setNotServingCalls + 2 ∧
    (a.shutdownOnce (a.shutdownOnce s)).grpcStopSequences = s.grpcStopSequences + 2 ∧
    a.handleGracefulShutdown t s = a.shutdownOnce s ∧
    (a.shutdownOnce s).grpcStopSequences = s.grpcStopSequences + 1 := by
  refine ⟨?_, ?_, rfl, rfl⟩ <;> simp [App.shutdownOnce]

end Wirego
